import Mathlib

/-!
Verification of the Santa kernel/userspace protocol header
(`Source/common/SNTKernelCommon.h`) and of the spec-level behaviour built
on it (message codec, pending-request matching).
-/

set_option maxRecDepth 2048

namespace Santa

/-- MAX_VNODE_ID_STR from SNTKernelCommon.h: digits in UINT64_MAX + 1 for the
NUL terminator. -/
def MAX_VNODE_ID_STR : Nat := 21

/-- MAXPATHLEN from `<sys/param.h>` on the target platform (Darwin): 1024. -/
def MAXPATHLEN : Nat := 1024

/-- The `SantaDriverMethods` enum from SNTKernelCommon.h, in declaration
order.  The C enum gives consecutive values starting at 0. -/
inductive SantaDriverMethods where
  | kSantaUserClientOpen
  | kSantaUserClientAllowBinary
  | kSantaUserClientDenyBinary
  | kSantaUserClientClearCache
  | kSantaUserClientCacheCount
  | kSantaUserClientNMethods
deriving DecidableEq, Fintype, Repr

/-- The integer value the C enum assigns to each `SantaDriverMethods`
enumerator: consecutive ordinals starting at 0, in declaration order. -/
def methodValue : SantaDriverMethods → Nat
  | .kSantaUserClientOpen => 0
  | .kSantaUserClientAllowBinary => 1
  | .kSantaUserClientDenyBinary => 2
  | .kSantaUserClientClearCache => 3
  | .kSantaUserClientCacheCount => 4
  | .kSantaUserClientNMethods => 5

/-- The `santa_action_t` enum from SNTKernelCommon.h. -/
inductive santa_action_t where
  | ACTION_UNSET
  | ACTION_REQUEST_CHECKBW
  | ACTION_RESPOND_CHECKBW_ALLOW
  | ACTION_RESPOND_CHECKBW_DENY
  | ACTION_NOTIFY_EXEC
  | ACTION_NOTIFY_WRITE
  | ACTION_NOTIFY_RENAME
  | ACTION_NOTIFY_LINK
  | ACTION_NOTIFY_EXCHANGE
  | ACTION_NOTIFY_DELETE
  | ACTION_REQUEST_SHUTDOWN
  | ACTION_ERROR
deriving DecidableEq, Fintype, Repr

/-- The explicit integer value SNTKernelCommon.h assigns to each
`santa_action_t` enumerator. -/
def actionValue : santa_action_t → Nat
  | .ACTION_UNSET => 0
  | .ACTION_REQUEST_CHECKBW => 10
  | .ACTION_RESPOND_CHECKBW_ALLOW => 11
  | .ACTION_RESPOND_CHECKBW_DENY => 12
  | .ACTION_NOTIFY_EXEC => 20
  | .ACTION_NOTIFY_WRITE => 21
  | .ACTION_NOTIFY_RENAME => 22
  | .ACTION_NOTIFY_LINK => 23
  | .ACTION_NOTIFY_EXCHANGE => 24
  | .ACTION_NOTIFY_DELETE => 25
  | .ACTION_REQUEST_SHUTDOWN => 90
  | .ACTION_ERROR => 99

/-- The `CHECKBW_RESPONSE_VALID(x)` macro from SNTKernelCommon.h:
`x == ACTION_RESPOND_CHECKBW_ALLOW || x == ACTION_RESPOND_CHECKBW_DENY`. -/
def CHECKBW_RESPONSE_VALID (x : santa_action_t) : Bool :=
  x == .ACTION_RESPOND_CHECKBW_ALLOW || x == .ACTION_RESPOND_CHECKBW_DENY

/-- The membership-of-request/response family predicate, read off the
`// CHECKBW` comment block of the enum. -/
def isRequestResponse : santa_action_t → Bool
  | .ACTION_REQUEST_CHECKBW => true
  | .ACTION_RESPOND_CHECKBW_ALLOW => true
  | .ACTION_RESPOND_CHECKBW_DENY => true
  | _ => false

/-- The membership-of-notify family predicate, read off the `// NOTIFY`
comment block of the enum. -/
def isNotify : santa_action_t → Bool
  | .ACTION_NOTIFY_EXEC => true
  | .ACTION_NOTIFY_WRITE => true
  | .ACTION_NOTIFY_RENAME => true
  | .ACTION_NOTIFY_LINK => true
  | .ACTION_NOTIFY_EXCHANGE => true
  | .ACTION_NOTIFY_DELETE => true
  | _ => false

/-- The families of `santa_action_t`, following the comment blocks of the
enum. -/
inductive ActionFamily where
  | UNSET
  | REQUEST_RESPONSE
  | NOTIFY
  | SHUTDOWN
  | ERROR
deriving DecidableEq, Fintype, Repr

/-- Classification of an action tag into its family, read off the comment
blocks of the enum declaration. -/
def familyOf : santa_action_t → ActionFamily
  | .ACTION_UNSET => .UNSET
  | .ACTION_REQUEST_CHECKBW => .REQUEST_RESPONSE
  | .ACTION_RESPOND_CHECKBW_ALLOW => .REQUEST_RESPONSE
  | .ACTION_RESPOND_CHECKBW_DENY => .REQUEST_RESPONSE
  | .ACTION_NOTIFY_EXEC => .NOTIFY
  | .ACTION_NOTIFY_WRITE => .NOTIFY
  | .ACTION_NOTIFY_RENAME => .NOTIFY
  | .ACTION_NOTIFY_LINK => .NOTIFY
  | .ACTION_NOTIFY_EXCHANGE => .NOTIFY
  | .ACTION_NOTIFY_DELETE => .NOTIFY
  | .ACTION_REQUEST_SHUTDOWN => .SHUTDOWN
  | .ACTION_ERROR => .ERROR

/-- The `santa_message_t` struct from SNTKernelCommon.h: action tag,
64-bit vnode id, uid, gid, pid, ppid, and two fixed-capacity path buffers
of MAXPATHLEN bytes each.  Numeric fields are modelled as their
fixed-width bit patterns (naturals below 2^32 / 2^64); path buffers as
byte lists of length exactly MAXPATHLEN. -/
structure santa_message_t where
  action : santa_action_t
  vnode_id : Nat
  uid : Nat
  gid : Nat
  pid : Nat
  ppid : Nat
  path : List Nat
  newpath : List Nat
deriving DecidableEq, Repr

/-- A path buffer is valid when it fills its fixed capacity (MAXPATHLEN
bytes, C char array) and each entry is a byte. -/
def ValidBuf (b : List Nat) : Prop :=
  b.length = MAXPATHLEN ∧ ∀ x ∈ b, x < 256

instance (b : List Nat) : Decidable (ValidBuf b) := by
  unfold ValidBuf; infer_instance

/-- A message is valid when every numeric field fits its C width and both
path buffers are valid fixed-capacity byte buffers. -/
def ValidMessage (m : santa_message_t) : Prop :=
  m.vnode_id < 2 ^ 64 ∧ m.uid < 2 ^ 32 ∧ m.gid < 2 ^ 32 ∧
    m.pid < 2 ^ 32 ∧ m.ppid < 2 ^ 32 ∧ ValidBuf m.path ∧ ValidBuf m.newpath

instance (m : santa_message_t) : Decidable (ValidMessage m) := by
  unfold ValidMessage; infer_instance

/-- Little-endian serialization of a natural into `w` bytes. -/
def toBytes : Nat → Nat → List Nat
  | 0, _ => []
  | w + 1, n => n % 256 :: toBytes w (n / 256)

/-- Little-endian deserialization of a byte list into a natural. -/
def fromBytes : List Nat → Nat
  | [] => 0
  | b :: bs => b + 256 * fromBytes bs

/-- The twelve enumerators, for inverse tag lookup. -/
def actionList : List santa_action_t :=
  [.ACTION_UNSET, .ACTION_REQUEST_CHECKBW, .ACTION_RESPOND_CHECKBW_ALLOW,
   .ACTION_RESPOND_CHECKBW_DENY, .ACTION_NOTIFY_EXEC, .ACTION_NOTIFY_WRITE,
   .ACTION_NOTIFY_RENAME, .ACTION_NOTIFY_LINK, .ACTION_NOTIFY_EXCHANGE,
   .ACTION_NOTIFY_DELETE, .ACTION_REQUEST_SHUTDOWN, .ACTION_ERROR]

/-- Inverse of `actionValue`: the enumerator with the given tag value, or
`none` when the value is outside the enumerated set. -/
def valueToAction (v : Nat) : Option santa_action_t :=
  actionList.find? (fun a => actionValue a == v)

/-- Errors of the message codec, from the spec's error taxonomy (§7). -/
inductive DecodeError where
  | MalformedMessage
  | UnknownAction
deriving DecidableEq, Repr

/-- The constant wire size of a message: 4-byte action tag, 8-byte vnode
id, four 4-byte ids, and two MAXPATHLEN path buffers. -/
def wireSize : Nat := 4 + 8 + 4 + 4 + 4 + 4 + MAXPATHLEN + MAXPATHLEN

/-- Modelled from the spec: `encode(Message) → bytes` (§4.1, §6) is not
under src (src holds only the wire struct declaration).  Fixed-size
serialization in field order: action tag as 4 bytes, vnode id as 8 bytes,
uid/gid/pid/ppid as 4 bytes each, then the two fixed-capacity path
buffers. -/
def encode (m : santa_message_t) : List Nat :=
  toBytes 4 (actionValue m.action) ++ (toBytes 8 m.vnode_id ++
    (toBytes 4 m.uid ++ (toBytes 4 m.gid ++ (toBytes 4 m.pid ++
      (toBytes 4 m.ppid ++ (m.path ++ m.newpath))))))

/-- Modelled from the spec: `decode(bytes) → Message` (§4.1, §6, §7) is not
under src.  Fails with `MalformedMessage` unless the input has exactly the
fixed record size, and with `UnknownAction` when the 4-byte tag is outside
the enumerated action set; otherwise reads the fields back in order. -/
def decode (b : List Nat) : Except DecodeError santa_message_t :=
  if b.length = wireSize then
    match valueToAction (fromBytes (b.take 4)) with
    | none => .error .UnknownAction
    | some a =>
      .ok { action := a
            vnode_id := fromBytes ((b.drop 4).take 8)
            uid := fromBytes (((b.drop 4).drop 8).take 4)
            gid := fromBytes ((((b.drop 4).drop 8).drop 4).take 4)
            pid := fromBytes (((((b.drop 4).drop 8).drop 4).drop 4).take 4)
            ppid := fromBytes ((((((b.drop 4).drop 8).drop 4).drop 4).drop 4).take 4)
            path := (((((((b.drop 4).drop 8).drop 4).drop 4).drop 4).drop 4)).take MAXPATHLEN
            newpath := (((((((b.drop 4).drop 8).drop 4).drop 4).drop 4).drop 4)).drop MAXPATHLEN }
  else .error .MalformedMessage

/-- A concrete valid message used to instantiate the codec theorems: a
max-length path of printable bytes and a second path that reaches the
capacity boundary ending in a NUL byte. -/
def exMsg : santa_message_t :=
  { action := .ACTION_NOTIFY_RENAME
    vnode_id := 2 ^ 64 - 1
    uid := 501
    gid := 20
    pid := 4321
    ppid := 1
    path := List.replicate MAXPATHLEN 65
    newpath := List.replicate (MAXPATHLEN - 1) 66 ++ [0] }

/-- The verdict a response carries, from the spec's data model (§3). -/
inductive Verdict where
  | allow
  | deny
deriving DecidableEq, Repr

/-- Modelled from the spec: the Pending Request Table (§3, §5) is not
under src (src holds only the wire header).  It maps each in-flight
request's correlation key — the binary identity (vnode id) — to a blocked
caller; modelled as the list of pending identities. -/
structure PendingTable where
  pending : List Nat
deriving DecidableEq, Repr

/-- Whether a request for identity `i` is currently pending. -/
def isPending (t : PendingTable) (i : Nat) : Bool :=
  t.pending.contains i

/-- Modelled from the spec: response delivery (§4.4, §5) is not under src.
Responses are matched to requests by binary identity: delivering a
response for identity `j` with verdict `v` resolves exactly the pending
entries whose identity equals `j` (each resolved caller receives `v`) and
leaves every other entry pending; a response matching no outstanding
request resolves no caller.  Returns the updated table and the resolved
callers. -/
def deliverResponse (t : PendingTable) (j : Nat) (v : Verdict) :
    PendingTable × List (Nat × Verdict) :=
  (⟨t.pending.filter (fun i => i != j)⟩,
   (t.pending.filter (fun i => i == j)).map (fun i => (i, v)))

theorem toBytes_length (w n : Nat) : (toBytes w n).length = w := by
  induction w generalizing n with
  | zero => rfl
  | succ w ih => simp [toBytes, ih]

theorem fromBytes_toBytes (w n : Nat) (h : n < 256 ^ w) :
    fromBytes (toBytes w n) = n := by
  induction w generalizing n with
  | zero => simp [pow_zero] at h; simp [h, toBytes, fromBytes]
  | succ w ih =>
    have hdiv : n / 256 < 256 ^ w := by
      rw [Nat.div_lt_iff_lt_mul (by norm_num)]
      calc n < 256 ^ (w + 1) := h
        _ = 256 ^ w * 256 := by ring
    simp [toBytes, fromBytes, ih _ hdiv, Nat.mod_add_div]

theorem valueToAction_actionValue (a : santa_action_t) :
    valueToAction (actionValue a) = some a := by
  cases a <;> rfl

theorem valueToAction_eq_none (v : Nat)
    (h : ∀ a : santa_action_t, actionValue a ≠ v) : valueToAction v = none := by
  apply List.find?_eq_none.mpr
  intro a _
  simpa using h a

theorem take_len_append {α : Type} (l₁ l₂ : List α) (n : Nat)
    (h : l₁.length = n) : (l₁ ++ l₂).take n = l₁ := by
  subst h; simp

theorem drop_len_append {α : Type} (l₁ l₂ : List α) (n : Nat)
    (h : l₁.length = n) : (l₁ ++ l₂).drop n = l₂ := by
  subst h; simp

theorem encode_length (m : santa_message_t) (h : ValidMessage m) :
    (encode m).length = wireSize := by
  obtain ⟨_, _, _, _, _, ⟨hp, _⟩, ⟨hq, _⟩⟩ := h
  simp [encode, wireSize, toBytes_length, hp, hq]
  ring

theorem actionValue_lt (a : santa_action_t) : actionValue a < 256 ^ 4 := by
  cases a <;> norm_num [actionValue]

theorem decode_encode (m : santa_message_t) (h : ValidMessage m) :
    decode (encode m) = .ok m := by
  have hlen := encode_length m h
  obtain ⟨hv, hu, hg, hpd, hppd, ⟨hpl, _⟩, ⟨hql, _⟩⟩ := h
  obtain ⟨a, vn, u, g, p, pp, pa, np⟩ := m
  simp only at hv hu hg hpd hppd hpl hql
  have h32 : (2:Nat) ^ 32 = 256 ^ 4 := by norm_num
  have h64 : (2:Nat) ^ 64 = 256 ^ 8 := by norm_num
  rw [h32] at hu hg hpd hppd
  rw [h64] at hv
  simp only [decode, encode] at hlen ⊢
  rw [if_pos hlen]
  rw [take_len_append _ _ _ (toBytes_length 4 _),
    fromBytes_toBytes 4 _ (actionValue_lt a), valueToAction_actionValue,
    drop_len_append _ _ _ (toBytes_length 4 _),
    take_len_append _ _ _ (toBytes_length 8 _),
    fromBytes_toBytes 8 _ hv,
    drop_len_append _ _ _ (toBytes_length 8 _),
    take_len_append _ _ _ (toBytes_length 4 _),
    fromBytes_toBytes 4 _ hu,
    drop_len_append _ _ _ (toBytes_length 4 _),
    take_len_append _ _ _ (toBytes_length 4 _),
    fromBytes_toBytes 4 _ hg,
    drop_len_append _ _ _ (toBytes_length 4 _),
    take_len_append _ _ _ (toBytes_length 4 _),
    fromBytes_toBytes 4 _ hpd,
    drop_len_append _ _ _ (toBytes_length 4 _),
    take_len_append _ _ _ (toBytes_length 4 _),
    fromBytes_toBytes 4 _ hppd,
    drop_len_append _ _ _ (toBytes_length 4 _),
    take_len_append _ _ _ hpl,
    drop_len_append _ _ _ hpl]

theorem exMsg_valid : ValidMessage exMsg := by
  refine ⟨by norm_num [exMsg], by norm_num [exMsg], by norm_num [exMsg],
    by norm_num [exMsg], by norm_num [exMsg], ⟨?_, ?_⟩, ⟨?_, ?_⟩⟩
  · simp [exMsg]
  · intro x hx
    simp only [exMsg] at hx
    rw [List.eq_of_mem_replicate hx]
    norm_num
  · show (List.replicate (MAXPATHLEN - 1) 66 ++ [0]).length = MAXPATHLEN
    rw [List.length_append, List.length_replicate]
    norm_num [MAXPATHLEN]
  · intro x hx
    simp only [exMsg] at hx
    rcases List.mem_append.mp hx with h | h
    · rw [List.eq_of_mem_replicate h]
      norm_num
    · simp only [List.mem_singleton] at h
      omega

end Santa

namespace Santa

/-- Claim C1: `CHECKBW_RESPONSE_VALID x` is true exactly when `x` is
`ACTION_RESPOND_CHECKBW_ALLOW` or `ACTION_RESPOND_CHECKBW_DENY`; in
particular it is true for respond-allow and false for every other
enumerated tag, including exec-notify, the request itself, unset,
shutdown and error. -/
theorem checkbw_response_valid_iff :
    (∀ x : santa_action_t,
      CHECKBW_RESPONSE_VALID x = true ↔
        (x = .ACTION_RESPOND_CHECKBW_ALLOW ∨ x = .ACTION_RESPOND_CHECKBW_DENY)) ∧
    CHECKBW_RESPONSE_VALID .ACTION_RESPOND_CHECKBW_ALLOW = true ∧
    CHECKBW_RESPONSE_VALID .ACTION_RESPOND_CHECKBW_DENY = true ∧
    CHECKBW_RESPONSE_VALID .ACTION_NOTIFY_EXEC = false ∧
    CHECKBW_RESPONSE_VALID .ACTION_REQUEST_CHECKBW = false ∧
    CHECKBW_RESPONSE_VALID .ACTION_UNSET = false ∧
    CHECKBW_RESPONSE_VALID .ACTION_REQUEST_SHUTDOWN = false ∧
    CHECKBW_RESPONSE_VALID .ACTION_ERROR = false ∧
    ∀ x : santa_action_t, isNotify x = true → CHECKBW_RESPONSE_VALID x = false := by
  decide

/-- Closed instance of C1's general statement, evaluated on concrete tags. -/
theorem checkbw_response_valid_iff_witness :
    CHECKBW_RESPONSE_VALID .ACTION_RESPOND_CHECKBW_ALLOW = true ∧
    CHECKBW_RESPONSE_VALID .ACTION_NOTIFY_EXEC = false :=
  ⟨checkbw_response_valid_iff.2.1,
   (checkbw_response_valid_iff.2.2.2.2.2.2.2.2 .ACTION_NOTIFY_EXEC (by decide))⟩

/-- Claim C2: the action tag values are grouped by family into disjoint
fixed integer ranges: the request/response tags lie in 10–19, the notify
tags lie in 20–29, the shutdown tag lies in 90–99, and the error tag
equals 99. -/
theorem action_tag_family_ranges :
    (∀ a : santa_action_t, isRequestResponse a = true →
      10 ≤ actionValue a ∧ actionValue a ≤ 19) ∧
    (∀ a : santa_action_t, isNotify a = true →
      20 ≤ actionValue a ∧ actionValue a ≤ 29) ∧
    (90 ≤ actionValue .ACTION_REQUEST_SHUTDOWN ∧
      actionValue .ACTION_REQUEST_SHUTDOWN ≤ 99) ∧
    actionValue .ACTION_ERROR = 99 := by
  decide

/-- Closed instance of C2, evaluated at a request/response tag and a
notify tag. -/
theorem action_tag_family_ranges_witness :
    (10 ≤ actionValue .ACTION_RESPOND_CHECKBW_ALLOW ∧
      actionValue .ACTION_RESPOND_CHECKBW_ALLOW ≤ 19) ∧
    (20 ≤ actionValue .ACTION_NOTIFY_DELETE ∧
      actionValue .ACTION_NOTIFY_DELETE ≤ 29) :=
  ⟨action_tag_family_ranges.1 .ACTION_RESPOND_CHECKBW_ALLOW (by decide),
   action_tag_family_ranges.2.1 .ACTION_NOTIFY_DELETE (by decide)⟩

/-- Claim C3: the five control operations get consecutive ordinal method
ids starting at 0 in declaration order (open = 0 … cache-count = 4), and
the count sentinel `kSantaUserClientNMethods` equals 5, the number of
control operations. -/
theorem driver_method_ids :
    methodValue .kSantaUserClientOpen = 0 ∧
    methodValue .kSantaUserClientAllowBinary = 1 ∧
    methodValue .kSantaUserClientDenyBinary = 2 ∧
    methodValue .kSantaUserClientClearCache = 3 ∧
    methodValue .kSantaUserClientCacheCount = 4 ∧
    methodValue .kSantaUserClientNMethods = 5 ∧
    [SantaDriverMethods.kSantaUserClientOpen, .kSantaUserClientAllowBinary,
      .kSantaUserClientDenyBinary, .kSantaUserClientClearCache,
      .kSantaUserClientCacheCount].length = 5 := by
  decide

/-- Claim C9: the twelve enumerator values of `santa_action_t` are pairwise
distinct (the value map is injective, so family classification is a
well-defined function of the tag value), and `ACTION_UNSET = 0`, so a
zero-initialized message carries the never-sent sentinel action. -/
theorem action_values_distinct :
    (∀ a b : santa_action_t, actionValue a = actionValue b ↔ a = b) ∧
    actionValue .ACTION_UNSET = 0 ∧
    (∀ a b : santa_action_t, actionValue a = actionValue b →
      familyOf a = familyOf b) := by
  decide

/-- Closed instance of C9's conditional parts at concrete tags. -/
theorem action_values_distinct_witness :
    (actionValue .ACTION_NOTIFY_EXEC = actionValue .ACTION_NOTIFY_EXEC ↔
      santa_action_t.ACTION_NOTIFY_EXEC = .ACTION_NOTIFY_EXEC) ∧
    familyOf .ACTION_ERROR = familyOf .ACTION_ERROR :=
  ⟨action_values_distinct.1 .ACTION_NOTIFY_EXEC .ACTION_NOTIFY_EXEC,
   action_values_distinct.2.2 .ACTION_ERROR .ACTION_ERROR (by decide)⟩

/-- Claim C4: a Message is a fixed-size record: every valid message
encodes to exactly `wireSize` bytes, its two path buffers have the fixed
capacity MAXPATHLEN and the vnode id is a 64-bit value, and a message is
determined by exactly the eight fields action, vnode_id, uid, gid, pid,
ppid, path, newpath. -/
theorem message_fixed_record :
    (∀ m : santa_message_t, ValidMessage m → (encode m).length = wireSize) ∧
    (∀ m : santa_message_t, ValidMessage m →
      m.path.length = MAXPATHLEN ∧ m.newpath.length = MAXPATHLEN ∧
        m.vnode_id < 2 ^ 64) ∧
    (∀ m m' : santa_message_t,
      m.action = m'.action → m.vnode_id = m'.vnode_id → m.uid = m'.uid →
      m.gid = m'.gid → m.pid = m'.pid → m.ppid = m'.ppid →
      m.path = m'.path → m.newpath = m'.newpath → m = m') := by
  refine ⟨encode_length, ?_, ?_⟩
  · intro m hm
    exact ⟨hm.2.2.2.2.2.1.1, hm.2.2.2.2.2.2.1, hm.1⟩
  · intro m m' h1 h2 h3 h4 h5 h6 h7 h8
    cases m; cases m'; simp_all

/-- Closed instance of C4 at a concrete valid message. -/
theorem message_fixed_record_witness :
    ValidMessage exMsg ∧ (encode exMsg).length = wireSize :=
  ⟨exMsg_valid, message_fixed_record.1 exMsg exMsg_valid⟩

/-- Claim C5: for every valid message m — including max-length path
buffers and paths at embedded-NUL boundaries — decoding the encoding of m
yields m again. -/
theorem decode_encode_roundtrip (m : santa_message_t) (h : ValidMessage m) :
    decode (encode m) = .ok m :=
  decode_encode m h

/-- Closed instance of C5 at a concrete valid message whose primary path
has maximum length and whose secondary path ends at a NUL boundary. -/
theorem decode_encode_roundtrip_witness :
    ValidMessage exMsg ∧ decode (encode exMsg) = .ok exMsg :=
  ⟨exMsg_valid, decode_encode_roundtrip exMsg exMsg_valid⟩

/-- Claim C7: a correctly sized byte sequence whose 4-byte tag value lies
outside the enumerated action set is rejected by decode with
`UnknownAction` — it is never silently ignored or decoded to a message. -/
theorem decode_unknown_action (v : Nat) (rest : List Nat)
    (hv : v < 2 ^ 32) (ha : ∀ a : santa_action_t, actionValue a ≠ v)
    (hlen : rest.length = wireSize - 4) :
    decode (toBytes 4 v ++ rest) = .error .UnknownAction := by
  have hl : (toBytes 4 v ++ rest).length = wireSize := by
    simp only [List.length_append, toBytes_length, hlen, wireSize, MAXPATHLEN]
  have hv' : v < 256 ^ 4 := by
    calc v < 2 ^ 32 := hv
      _ = 256 ^ 4 := by norm_num
  rw [decode, if_pos hl, take_len_append _ _ _ (toBytes_length 4 _),
    fromBytes_toBytes 4 _ hv', valueToAction_eq_none v ha]

/-- Closed instance of C7: tag value 13 is outside the enumerated set and
a full-size record carrying it decodes to `UnknownAction`. -/
theorem decode_unknown_action_witness :
    (∀ a : santa_action_t, actionValue a ≠ 13) ∧
    decode (toBytes 4 13 ++ List.replicate 2072 0) = .error .UnknownAction :=
  ⟨by decide,
   decode_unknown_action 13 (List.replicate 2072 0) (by norm_num) (by decide)
     (by rw [List.length_replicate]; norm_num [wireSize, MAXPATHLEN])⟩

/-- Claim C8: decode fails with `MalformedMessage` on every byte sequence
whose length differs from the fixed record size, and succeeds only on
inputs of exactly the fixed record size. -/
theorem decode_length_check :
    (∀ b : List Nat, b.length ≠ wireSize →
      decode b = .error .MalformedMessage) ∧
    (∀ b : List Nat, ∀ m : santa_message_t, decode b = .ok m →
      b.length = wireSize) := by
  constructor
  · intro b hb
    rw [decode, if_neg hb]
  · intro b m hm
    by_contra hb
    rw [decode, if_neg hb] at hm
    exact absurd hm (by simp)

/-- Closed instance of C8: the empty byte sequence has the wrong length
and decodes to `MalformedMessage`. -/
theorem decode_length_check_witness :
    ([] : List Nat).length ≠ wireSize ∧
    decode ([] : List Nat) = .error .MalformedMessage :=
  ⟨by decide, decode_length_check.1 [] (by decide)⟩

/-- Claim C10: MAX_VNODE_ID_STR is 21 = 20 + 1, where 20 is the number of
decimal digits of UINT64_MAX, so every 64-bit vnode id's decimal string
plus NUL terminator fits in MAX_VNODE_ID_STR bytes. -/
theorem max_vnode_id_str_bound :
    MAX_VNODE_ID_STR = 21 ∧
    (Nat.digits 10 (2 ^ 64 - 1)).length = 20 ∧
    ∀ n : Nat, n < 2 ^ 64 →
      (Nat.digits 10 n).length + 1 ≤ MAX_VNODE_ID_STR := by
  refine ⟨rfl, ?_, ?_⟩
  · have hlog19 : Nat.log 10 (2 ^ 64 - 1) = 19 :=
      Nat.log_eq_of_pow_le_of_lt_pow (by norm_num) (by norm_num)
    rw [Nat.digits_len 10 _ (by norm_num) (by norm_num), hlog19]
  · intro n hn
    rcases Nat.eq_zero_or_pos n with hz | hpos
    · simp [hz, MAX_VNODE_ID_STR]
    · have hlt : n < 10 ^ 20 := by
        calc n < 2 ^ 64 := hn
          _ ≤ 10 ^ 20 := by norm_num
      have hlog : Nat.log 10 n < 20 :=
        Nat.log_lt_of_lt_pow (Nat.pos_iff_ne_zero.mp hpos) hlt
      rw [Nat.digits_len 10 _ (by norm_num) (Nat.pos_iff_ne_zero.mp hpos)]
      simp only [MAX_VNODE_ID_STR]
      omega

/-- Closed instance of C10's bound at the largest 64-bit vnode id. -/
theorem max_vnode_id_str_bound_witness :
    (Nat.digits 10 (2 ^ 64 - 1)).length + 1 ≤ MAX_VNODE_ID_STR :=
  max_vnode_id_str_bound.2.2 (2 ^ 64 - 1) (by norm_num)

/-- Claim C6: while a request for identity I is pending, delivering a
response for a different identity J leaves the request for I pending and
resolves no caller for I; and a response that matches no outstanding
request resolves no caller at all and leaves the table unchanged. -/
theorem cross_identity_no_resolution :
    (∀ (t : PendingTable) (i j : Nat) (v : Verdict),
      isPending t i = true → i ≠ j →
        isPending (deliverResponse t j v).1 i = true ∧
        ∀ p ∈ (deliverResponse t j v).2, p.1 ≠ i) ∧
    (∀ (t : PendingTable) (j : Nat) (v : Verdict),
      isPending t j = false →
        (deliverResponse t j v).2 = [] ∧ (deliverResponse t j v).1 = t) := by
  constructor
  · intro t i j v hpend hne
    constructor
    · simp only [isPending, deliverResponse, List.contains, List.elem_eq_mem,
        decide_eq_true_eq, List.mem_filter, bne_iff_ne] at hpend ⊢
      exact ⟨hpend, hne⟩
    · intro p hp
      simp only [deliverResponse, List.mem_map, List.mem_filter,
        beq_iff_eq] at hp
      obtain ⟨x, ⟨hxm, hxj⟩, hpv⟩ := hp
      subst hxj
      subst hpv
      exact fun h => hne h.symm
  · intro t j v hpend
    simp only [isPending, List.contains, List.elem_eq_mem,
      decide_eq_false_iff_not] at hpend
    constructor
    · simp only [deliverResponse, List.map_eq_nil_iff, List.filter_eq_nil_iff,
        beq_iff_eq]
      intro a ha h
      exact hpend (h ▸ ha)
    · simp only [deliverResponse]
      congr 1
      apply List.filter_eq_self.mpr
      intro a ha
      simp only [bne_iff_ne]
      intro h
      exact hpend (h ▸ ha)

/-- Closed instance of C6: with a request pending for identity 5, a
response for identity 7 leaves 5 pending and resolves nobody. -/
theorem cross_identity_no_resolution_witness :
    isPending ⟨[5]⟩ 5 = true ∧
    isPending (deliverResponse ⟨[5]⟩ 7 .allow).1 5 = true ∧
    isPending ⟨[5]⟩ 7 = false ∧
    (deliverResponse ⟨[5]⟩ 7 .allow).2 = [] :=
  ⟨by decide,
   (cross_identity_no_resolution.1 ⟨[5]⟩ 5 7 .allow (by decide) (by decide)).1,
   by decide,
   (cross_identity_no_resolution.2 ⟨[5]⟩ 7 .allow (by decide)).1⟩

end Santa
